import Mathlib

/-!
Shallow embedding of the L2MBossTracker core (src/index.js, with the variant
src/unnamed/part_000 consulted where the two files differ).

JS numbers are modelled as rationals (ℚ); timestamps are milliseconds.
JS `null`/absent fields are `Option`; JS truthiness of a numeric field
(`boss.maxRespawnHours && ...`) is `truthyNum` (false for null and for 0).
-/

/-- JS truthiness of a nullable number: `null` and `0` are falsy. -/
def truthyNum : Option ℚ → Bool
  | none => false
  | some q => q ≠ 0

/-- JS truthiness of a nullable string: `null` and `""` are falsy. -/
def truthyStr : Option String → Bool
  | none => false
  | some s => s ≠ ""

/-- One hour in milliseconds (`1 * 60 * 60 * 1000`). -/
def hourMs : ℚ := 60 * 60 * 1000

/-- The constant `PRE_SPAWN_NOTIFICATION_MINUTES = 15` (src/index.js line 567). -/
def PRE_SPAWN_NOTIFICATION_MINUTES : ℚ := 15

/-- The constant `AUTO_MISS_TIMEOUT_MINUTES = 20` (src/index.js line 43). -/
def AUTO_MISS_TIMEOUT_MINUTES : ℚ := 20

/-- The per-boss record stored in `client.bossData` (fields from the
`guildBosses.set` literal at src/index.js lines 212-227). -/
structure Boss where
  name : String
  location : String
  minRespawnHours : ℚ
  maxRespawnHours : Option ℚ
  lastKilled : Option ℚ
  nextSpawnEstimateMin : Option ℚ
  nextSpawnEstimateMax : Option ℚ
  isWindow : Bool
  notificationJob : Option String
  spawnNotificationJob : Option String
  autoMissJob : Option String
  messageIdToTrack : Option String
  notificationChannelId : Option String
  originalChannelId : Option String
  deriving Repr, DecidableEq

/-- Field updates of `updateBossAsKilled` (src/index.js lines 394-402):
`lastKilled = killTimestamp`, `isWindow = false`,
`nextSpawnEstimateMin = killTimestamp + minRespawnHours*3600000`,
`nextSpawnEstimateMax = killTimestamp + maxRespawnHours*3600000` when
`maxRespawnHours` is truthy and `> minRespawnHours`, else `null`. -/
def updateBossAsKilledFields (b : Boss) (killTimestamp : ℚ) : Boss :=
  let b := { b with
    lastKilled := some killTimestamp
    isWindow := false
    nextSpawnEstimateMin := some (killTimestamp + b.minRespawnHours * hourMs) }
  if truthyNum b.maxRespawnHours ∧ b.maxRespawnHours.getD 0 > b.minRespawnHours then
    { b with nextSpawnEstimateMax := some (killTimestamp + b.maxRespawnHours.getD 0 * hourMs) }
  else
    { b with nextSpawnEstimateMax := none }

/-- Field updates of the `'miss'` button branch (src/index.js lines 509-516):
`isWindow = true`, `lastKilled = null`,
`nextSpawnEstimateMin = now + minRespawnHours*3600000`,
`nextSpawnEstimateMax = now + maxRespawnHours*3600000` when `maxRespawnHours`
is truthy and `> minRespawnHours`, else `now + (minRespawnHours+1)*3600000`. -/
def missFields (b : Boss) (now : ℚ) : Boss :=
  let b := { b with
    isWindow := true
    lastKilled := none
    nextSpawnEstimateMin := some (now + b.minRespawnHours * hourMs) }
  if truthyNum b.maxRespawnHours ∧ b.maxRespawnHours.getD 0 > b.minRespawnHours then
    { b with nextSpawnEstimateMax := some (now + b.maxRespawnHours.getD 0 * hourMs) }
  else
    { b with nextSpawnEstimateMax := some (now + (b.minRespawnHours + 1) * hourMs) }

/-- Field updates of the `'notappeared'` button branch (src/index.js lines
525-539): `baseTime = nextSpawnEstimateMin || now`; new min is `baseTime + 1h`;
the new max is old max `+ 1h` when old max is truthy, else derived from the
configured `maxRespawnHours - minRespawnHours` delta (clamped up to min `+ 1h`
when not above the new min), else new min `+ 1h`. -/
def notAppearedFields (b : Boss) (now : ℚ) : Boss :=
  let baseTime : ℚ :=
    if truthyNum b.nextSpawnEstimateMin then b.nextSpawnEstimateMin.getD 0 else now
  let newMin : ℚ := baseTime + 1 * hourMs
  let b := { b with
    isWindow := true
    lastKilled := none
    nextSpawnEstimateMin := some newMin }
  if truthyNum b.nextSpawnEstimateMax then
    { b with nextSpawnEstimateMax := some (b.nextSpawnEstimateMax.getD 0 + 1 * hourMs) }
  else if truthyNum b.maxRespawnHours then
    let derived : ℚ := newMin + (b.maxRespawnHours.getD 0 - b.minRespawnHours) * hourMs
    if derived ≤ newMin then
      { b with nextSpawnEstimateMax := some (newMin + 1 * hourMs) }
    else
      { b with nextSpawnEstimateMax := some derived }
  else
    { b with nextSpawnEstimateMax := some (newMin + 1 * hourMs) }

/-- Field updates performed by the auto-miss timer body at fire time
(src/index.js lines 707-717): `isWindow = true`, `lastKilled = null`,
`nextSpawnEstimateMin = now + minRespawnHours*3600000`,
`nextSpawnEstimateMax = now + maxRespawnHours*3600000` when `maxRespawnHours`
is truthy and `> minRespawnHours`, else `now + (minRespawnHours+1)*3600000`;
then `messageIdToTrack = null`, `autoMissJob = null`. -/
def autoMissFields (b : Boss) (now : ℚ) : Boss :=
  let b := { b with
    isWindow := true
    lastKilled := none
    nextSpawnEstimateMin := some (now + b.minRespawnHours * hourMs) }
  let b :=
    if truthyNum b.maxRespawnHours ∧ b.maxRespawnHours.getD 0 > b.minRespawnHours then
      { b with nextSpawnEstimateMax := some (now + b.maxRespawnHours.getD 0 * hourMs) }
    else
      { b with nextSpawnEstimateMax := some (now + (b.minRespawnHours + 1) * hourMs) }
  { b with messageIdToTrack := none, autoMissJob := none }

/-- The boss-button dispatch of the `interactionCreate` handler
(src/index.js lines 504-547): `'dead'` runs `updateBossAsKilled` at `now`,
`'miss'` and `'notappeared'` run their branches; every path then executes
`boss.messageIdToTrack = null` (line 547). The handler performs no check of
`messageIdToTrack` before dispatching. -/
def handleBossButton (b : Boss) (action : String) (now : ℚ) : Boss :=
  let b1 :=
    if action = "dead" then updateBossAsKilledFields b now
    else if action = "miss" then missFields b now
    else if action = "notappeared" then notAppearedFields b now
    else b
  { b1 with messageIdToTrack := none }

/-- The `!killed` command core on an already-parsed explicit timestamp
(src/index.js lines 243-271): the command is rejected — with the boss left
untouched — exactly when `parsedDate.getTime() > now + 60000` (line 264);
otherwise `updateBossAsKilled` runs at the parsed timestamp. Returns the
resulting boss and whether the report was accepted. -/
def killedCommand (b : Boss) (killTime now : ℚ) : Boss × Bool :=
  if killTime > now + 60000 then (b, false)
  else (updateBossAsKilledFields b killTime, true)

/-! ### Timer system

`client.activeTimers` is a `Map` from timer-key strings to `setTimeout`
handles; `setTimeout` handles are modelled as consecutive naturals, and every
handle ever created is kept in `timers` with a `cancelled` flag so that the
number of live (armed) timers can be stated. The system tracks a single boss
(one `(guildId, bossKey)` slot of `client.bossData`) plus a delivery log for
messages sent from timer callbacks. -/

/-- A `setTimeout` handle: its identity, the `activeTimers` key it was armed
under, and whether `clearTimeout` has been called on it. -/
structure TimerRec where
  id : Nat
  key : String
  cancelled : Bool
  deriving Repr, DecidableEq

/-- System state: the tracked boss (or `none` after removal), the
`client.activeTimers` map as an association list, every timer ever created,
the next fresh `setTimeout` handle, and a log of delivered messages. -/
structure Sys where
  boss : Option Boss
  activeTimers : List (String × Nat)
  timers : List TimerRec
  nextId : Nat
  delivered : List String
  deriving Repr, DecidableEq

/-- The `Map.get` operation on the association list. -/
def assocGet (l : List (String × Nat)) (k : String) : Option Nat :=
  match l.find? (fun p => p.1 = k) with
  | some p => some p.2
  | none => none

/-- The `Map.delete` operation on the association list. -/
def assocDelete (l : List (String × Nat)) (k : String) : List (String × Nat) :=
  l.filter (fun p => ¬ p.1 = k)

/-- The `Map.set` operation on the association list (replace any existing binding). -/
def assocSet (l : List (String × Nat)) (k : String) (v : Nat) : List (String × Nat) :=
  (k, v) :: assocDelete l k

/-- Calling `clearTimeout` on a handle: the timer is marked cancelled. -/
def clearTimeoutOn (ts : List TimerRec) (i : Nat) : List TimerRec :=
  ts.map (fun t => if t.id = i then { t with cancelled := true } else t)

/-- The timer key `` `${guildId}_${bossKey}_${type}` `` (src/index.js
lines 583, 613, 671, 752). -/
def timerKey (g b ph : String) : String := g ++ "_" ++ b ++ "_" ++ ph

/-- One iteration of the `types.forEach` body of `clearBossTimers`
(src/index.js lines 751-758): look the key up in `activeTimers`; when armed,
`clearTimeout` it and delete the map entry. -/
def clearOneTimer (s : Sys) (k : String) : Sys :=
  match assocGet s.activeTimers k with
  | some i =>
      { s with timers := clearTimeoutOn s.timers i
               activeTimers := assocDelete s.activeTimers k }
  | none => s

/-- The function `clearBossTimers` (src/index.js lines 749-769): clear the `pre`, `spawn`
and `automiss` timers, then null the three job fields on the boss. -/
def clearBossTimers (g b : String) (s : Sys) : Sys :=
  let s := clearOneTimer s (timerKey g b "pre")
  let s := clearOneTimer s (timerKey g b "spawn")
  let s := clearOneTimer s (timerKey g b "automiss")
  match s.boss with
  | some bo =>
      { s with boss := some { bo with notificationJob := none
                                      spawnNotificationJob := none
                                      autoMissJob := none } }
  | none => s

/-- Arm a fresh timer under key `k`: a new `setTimeout` handle is stored in
`activeTimers` under `k`. -/
def armTimer (s : Sys) (k : String) : Sys :=
  { s with timers := s.timers ++ [⟨s.nextId, k, false⟩]
           activeTimers := assocSet s.activeTimers k s.nextId
           nextId := s.nextId + 1 }

/-- The function `scheduleBossNotifications` (src/index.js lines 569-667): no-op when the
boss is gone or `nextSpawnEstimateMin` is falsy; otherwise `clearBossTimers`
first, then independently arm the pre-alert timer (if
`nextSpawnEstimateMin - 15min > now`, storing its key in `notificationJob`)
and the spawn timer (if `nextSpawnEstimateMin > now`, storing its key in
`spawnNotificationJob`). -/
def scheduleBossNotifications (g b : String) (now : ℚ) (s : Sys) : Sys :=
  match s.boss with
  | none => s
  | some bo =>
    if truthyNum bo.nextSpawnEstimateMin then
      let est := bo.nextSpawnEstimateMin.getD 0
      let preSpawnTime := est - PRE_SPAWN_NOTIFICATION_MINUTES * 60 * 1000
      let spawnTime := est
      let s := clearBossTimers g b s
      let s :=
        if preSpawnTime > now then
          let s := armTimer s (timerKey g b "pre")
          let nb := s.boss.map (fun bo => { bo with notificationJob := some (timerKey g b "pre") })
          { s with boss := nb }
        else s
      if spawnTime > now then
        let s := armTimer s (timerKey g b "spawn")
        let nb := s.boss.map (fun bo => { bo with spawnNotificationJob := some (timerKey g b "spawn") })
        { s with boss := nb }
      else s
    else s

/-- The function `scheduleAutoMissTimer` (src/index.js lines 669-746): `clearTimeout` any
existing `automiss` timer, then (when the boss still exists) arm a fresh one
and store its key in `autoMissJob`. -/
def scheduleAutoMissTimer (g b : String) (s : Sys) : Sys :=
  let k := timerKey g b "automiss"
  let s := clearOneTimer s k
  match s.boss with
  | none => s
  | some _ =>
    let s := armTimer s k
    let nb := s.boss.map (fun bo => { bo with autoMissJob := some k })
    { s with boss := nb }

/-- The body of the pre-alert `setTimeout` callback (src/index.js lines
585-606) with its captured `timerKey`: when the boss is gone or
`notificationJob !== timerKey` it returns at once; otherwise it resolves the
notification channel (delivery abstracted to appending to the log when a
channel id is configured), deletes the `activeTimers` entry and nulls
`notificationJob`. -/
def preCallback (b : String) (capturedKey : String) (s : Sys) : Sys :=
  match s.boss with
  | none => s
  | some bo =>
    if bo.notificationJob ≠ some capturedKey then s
    else
      let s :=
        if truthyStr bo.notificationChannelId ∨ truthyStr bo.originalChannelId then
          { s with delivered := s.delivered ++ ["pre:" ++ b] }
        else s
      let nb := s.boss.map (fun bo => { bo with notificationJob := none })
      { s with activeTimers := assocDelete s.activeTimers capturedKey, boss := nb }

/-- The function `initializeBossTimers` for one restored boss (src/index.js lines
110-134): when `nextSpawnEstimateMin` is truthy and in the future, run
`scheduleBossNotifications`; then, when `messageIdToTrack` is truthy and both
`spawnNotificationJob` and `autoMissJob` are null and a channel id is
configured, re-arm the auto-miss timer. -/
def initializeBossTimers (g b : String) (now : ℚ) (s : Sys) : Sys :=
  match s.boss with
  | none => s
  | some bo =>
    let s1 :=
      if truthyNum bo.nextSpawnEstimateMin ∧ bo.nextSpawnEstimateMin.getD 0 > now then
        scheduleBossNotifications g b now s
      else s
    match s1.boss with
    | none => s1
    | some bo1 =>
      if truthyStr bo1.messageIdToTrack ∧ bo1.spawnNotificationJob = none ∧
          bo1.autoMissJob = none then
        if truthyStr bo1.notificationChannelId ∨ truthyStr bo1.originalChannelId then
          scheduleAutoMissTimer g b s1
        else s1
      else s1

/-- Number of armed (created and never cancelled) timers under a key. -/
def liveCount (s : Sys) (k : String) : Nat :=
  (s.timers.filter (fun t => t.key = k ∧ t.cancelled = false)).length

/-! ### Persistence load -/

/-- Outcome of the `fs.existsSync` / `fs.readFileSync` / `JSON.parse` steps at
the top of `loadBossData` (src/index.js lines 79-83): the file may be absent,
reading it may throw, parsing may throw, or a snapshot is obtained. -/
inductive LoadInput where
  | noFile
  | readError
  | parseError
  | parsed (d : List (String × List (String × Boss)))
  deriving DecidableEq

/-- Runtime job fields are nulled on every loaded boss
(src/index.js lines 92-94). -/
def resetRuntimeJobs (b : Boss) : Boss :=
  { b with notificationJob := none, spawnNotificationJob := none, autoMissJob := none }

/-- The function `loadBossData` (src/index.js lines 79-108) as a function of the read/parse
outcome: a missing file keeps the current (startup-empty) store; a successful
parse replaces the store with the snapshot, runtime jobs nulled; any thrown
error is caught and `client.bossData` is replaced by a fresh empty
`Collection`. -/
def loadBossData (prev : List (String × List (String × Boss))) :
    LoadInput → List (String × List (String × Boss))
  | .noFile => prev
  | .readError => []
  | .parseError => []
  | .parsed d => d.map (fun gp => (gp.1, gp.2.map (fun bp => (bp.1, resetRuntimeJobs bp.2))))

/-! ### Concrete sample data used by witnesses and counterexamples -/

/-- A sample tracked boss (`!addboss "Queen Ant" "Ant Nest" 22 26`). -/
def sampleBoss : Boss :=
  { name := "Queen Ant", location := "Ant Nest"
    minRespawnHours := 22, maxRespawnHours := some 26
    lastKilled := none, nextSpawnEstimateMin := none, nextSpawnEstimateMax := none
    isWindow := false
    notificationJob := none, spawnNotificationJob := none, autoMissJob := none
    messageIdToTrack := none
    notificationChannelId := some "chan1", originalChannelId := some "chan0" }

/-- A boss whose spawn-alert message has been resolved already
(`messageIdToTrack` absent) but whose window fields are populated. -/
def staleBoss : Boss :=
  { sampleBoss with
    nextSpawnEstimateMin := some 100,
    nextSpawnEstimateMax := some 200,
    isWindow := true,
    messageIdToTrack := none }

/-! ### Claim theorems -/

/-- Claim C3: for a boss with valid interval bounds, `updateBossAsKilled` at
timestamp `t` sets `lastKilled = t`, `isWindow = false`,
`nextSpawnEstimateMin = t + minRespawnHours` (in ms), sets
`nextSpawnEstimateMax = t + maxRespawnHours` exactly when
`maxRespawnHours > minRespawnHours` and leaves it absent otherwise, and the
window start is strictly below the end whenever the end is present. -/
theorem killed_sets_point_estimate (b : Boss) (t : ℚ)
    (hmin : 0 < b.minRespawnHours)
    (hmax : ∀ M, b.maxRespawnHours = some M → b.minRespawnHours ≤ M) :
    (updateBossAsKilledFields b t).lastKilled = some t ∧
    (updateBossAsKilledFields b t).isWindow = false ∧
    (updateBossAsKilledFields b t).nextSpawnEstimateMin
        = some (t + b.minRespawnHours * hourMs) ∧
    (∀ M, b.maxRespawnHours = some M → b.minRespawnHours < M →
        (updateBossAsKilledFields b t).nextSpawnEstimateMax = some (t + M * hourMs)) ∧
    ((b.maxRespawnHours = none ∨ b.maxRespawnHours = some b.minRespawnHours) →
        (updateBossAsKilledFields b t).nextSpawnEstimateMax = none) ∧
    (∀ e, (updateBossAsKilledFields b t).nextSpawnEstimateMax = some e →
        t + b.minRespawnHours * hourMs < e) := by
  have hpos : (0:ℚ) < hourMs := by norm_num [hourMs]
  cases hM : b.maxRespawnHours with
  | none =>
      simp [updateBossAsKilledFields, truthyNum, hM]
  | some M =>
      have hMge : b.minRespawnHours ≤ M := hmax M hM
      have hM0 : M ≠ 0 := (lt_of_lt_of_le hmin hMge).ne'
      by_cases hlt : b.minRespawnHours < M
      · have harm : t + b.minRespawnHours * hourMs < t + M * hourMs := by
          have := mul_lt_mul_of_pos_right hlt hpos
          linarith
        simp only [updateBossAsKilledFields, truthyNum, hM, Option.getD_some]
        rw [if_pos (by simp [hM0, hlt])]
        refine ⟨rfl, rfl, rfl, ?_, ?_, ?_⟩
        · intro M' hM' _
          obtain rfl : M = M' := by simpa using hM'
          rfl
        · rintro (h | h)
          · simp at h
          · obtain rfl : M = b.minRespawnHours := by simpa using h
            exact absurd hlt (lt_irrefl _)
        · intro e he
          obtain rfl : t + M * hourMs = e := by simpa using he
          exact harm
      · have hEq : M = b.minRespawnHours := le_antisymm (not_lt.mp hlt) hMge
        simp only [updateBossAsKilledFields, truthyNum, hM, Option.getD_some]
        rw [if_neg (by simp [hlt])]
        simp [hM, hEq]

/-- Witness for C3: the theorem applied to the sample boss at kill time 1000. -/
theorem killed_sets_point_estimate_witness :
    (updateBossAsKilledFields sampleBoss 1000).lastKilled = some 1000 ∧
    (updateBossAsKilledFields sampleBoss 1000).nextSpawnEstimateMax
        = some (1000 + 26 * hourMs) :=
  ⟨(killed_sets_point_estimate sampleBoss 1000 (by norm_num [sampleBoss])
      (by intro M hM; simp [sampleBoss] at hM ⊢; linarith)).1,
   (killed_sets_point_estimate sampleBoss 1000 (by norm_num [sampleBoss])
      (by intro M hM; simp [sampleBoss] at hM ⊢; linarith)).2.2.2.1 26
      (by simp [sampleBoss]) (by norm_num [sampleBoss])⟩

/-- Claim C4: a "missed" response at time `M` sets `isWindow = true`, clears
`lastKilled`, sets `nextSpawnEstimateMin = M + minRespawnHours` and sets
`nextSpawnEstimateMax = M + maxRespawnHours` when `maxRespawnHours` is present
and greater than `minRespawnHours`, else `M + minRespawnHours + 1` hour. -/
theorem miss_sets_window_fields (b : Boss) (now : ℚ)
    (hmin : 0 < b.minRespawnHours)
    (hmax : ∀ M, b.maxRespawnHours = some M → b.minRespawnHours ≤ M) :
    (missFields b now).isWindow = true ∧
    (missFields b now).lastKilled = none ∧
    (missFields b now).nextSpawnEstimateMin = some (now + b.minRespawnHours * hourMs) ∧
    (∀ M, b.maxRespawnHours = some M → b.minRespawnHours < M →
        (missFields b now).nextSpawnEstimateMax = some (now + M * hourMs)) ∧
    ((b.maxRespawnHours = none ∨ b.maxRespawnHours = some b.minRespawnHours) →
        (missFields b now).nextSpawnEstimateMax
            = some (now + (b.minRespawnHours + 1) * hourMs)) := by
  cases hM : b.maxRespawnHours with
  | none =>
      simp [missFields, truthyNum, hM]
  | some M =>
      have hMge : b.minRespawnHours ≤ M := hmax M hM
      have hM0 : M ≠ 0 := (lt_of_lt_of_le hmin hMge).ne'
      by_cases hlt : b.minRespawnHours < M
      · simp only [missFields, truthyNum, hM, Option.getD_some]
        rw [if_pos (by simp [hM0, hlt])]
        refine ⟨rfl, rfl, rfl, ?_, ?_⟩
        · intro M' hM' _
          obtain rfl : M = M' := by simpa using hM'
          rfl
        · rintro (h | h)
          · simp at h
          · obtain rfl : M = b.minRespawnHours := by simpa using h
            exact absurd hlt (lt_irrefl _)
      · have hEq : M = b.minRespawnHours := le_antisymm (not_lt.mp hlt) hMge
        simp only [missFields, truthyNum, hM, Option.getD_some]
        rw [if_neg (by simp [hlt])]
        simp [hM, hEq]

/-- Witness for C4: the theorem applied to a boss with no configured maximum
(min 22h, max absent), at response time 5000. -/
theorem miss_sets_window_fields_witness :
    (missFields { sampleBoss with maxRespawnHours := none } 5000).nextSpawnEstimateMax
        = some (5000 + (22 + 1) * hourMs) :=
  (miss_sets_window_fields { sampleBoss with maxRespawnHours := none } 5000
      (by norm_num [sampleBoss]) (by intro M hM; simp [sampleBoss] at hM)).2.2.2.2
    (Or.inl (by simp [sampleBoss]))

/-- Claim C5: when `nextSpawnEstimateMin` is a (positive) present estimate,
each "not appeared" response moves `nextSpawnEstimateMin` up by exactly one
hour, sets `isWindow`, and re-establishes a present
`nextSpawnEstimateMax > nextSpawnEstimateMin`; the hypotheses (positive start,
end above start when the end is present and nonzero) are re-established, so
the shift applies under repeated application. -/
theorem notAppeared_shifts_window (b : Boss) (now v : ℚ)
    (hv : b.nextSpawnEstimateMin = some v) (hvpos : 0 < v)
    (hwf : ∀ w, b.nextSpawnEstimateMax = some w → w ≠ 0 → v < w) :
    (notAppearedFields b now).nextSpawnEstimateMin = some (v + hourMs) ∧
    (notAppearedFields b now).isWindow = true ∧
    (∃ e, (notAppearedFields b now).nextSpawnEstimateMax = some e ∧
        v + hourMs < e ∧ e ≠ 0) ∧
    0 < v + hourMs := by
  have hpos : (0:ℚ) < hourMs := by norm_num [hourMs]
  have hv0 : v ≠ 0 := hvpos.ne'
  cases hW : b.nextSpawnEstimateMax with
  | none =>
      cases hMr : b.maxRespawnHours with
      | none =>
          simp only [notAppearedFields, truthyNum, hv, hW, hMr, Option.getD_some,
            decide_eq_true_eq]
          split_ifs <;> simp_all <;>
            first
              | linarith
              | (constructor <;> first | linarith | (intro hE; linarith) | (intro hE; nlinarith))
              | (refine ⟨?_, ?_, ?_⟩ <;> first | linarith | (intro hE; linarith) | nlinarith)
      | some mr =>
          simp only [notAppearedFields, truthyNum, hv, hW, hMr, Option.getD_some,
            decide_eq_true_eq]
          split_ifs <;> simp_all <;>
            first
              | linarith
              | (constructor <;> first | linarith | (intro hE; linarith) | (intro hE; nlinarith))
              | (refine ⟨?_, ?_, ?_⟩ <;> first | linarith | (intro hE; linarith) | nlinarith)
  | some w =>
      by_cases hw0 : w = 0
      · subst hw0
        cases hMr : b.maxRespawnHours with
        | none =>
            simp only [notAppearedFields, truthyNum, hv, hW, hMr, Option.getD_some,
              decide_eq_true_eq]
            split_ifs <;> simp_all <;>
              first
                | linarith
                | (constructor <;> first | linarith | (intro hE; linarith) | (intro hE; nlinarith))
                | (refine ⟨?_, ?_, ?_⟩ <;> first | linarith | (intro hE; linarith) | nlinarith)
        | some mr =>
            simp only [notAppearedFields, truthyNum, hv, hW, hMr, Option.getD_some,
              decide_eq_true_eq]
            split_ifs <;> simp_all <;>
              first
                | linarith
                | (constructor <;> first | linarith | (intro hE; linarith) | (intro hE; nlinarith))
                | (refine ⟨?_, ?_, ?_⟩ <;> first | linarith | (intro hE; linarith) | nlinarith)
      · have hvw : v < w := hwf w hW hw0
        simp only [notAppearedFields, truthyNum, hv, hW, Option.getD_some,
          decide_eq_true_eq]
        split_ifs <;> simp_all <;>
          first
            | linarith
            | (constructor <;> first | linarith | (intro hE; linarith) | (intro hE; nlinarith))
            | (refine ⟨?_, ?_, ?_⟩ <;> first | linarith | (intro hE; linarith) | nlinarith)

/-- Witness for C5: the theorem applied to a boss with window `[100, 200]` at
response time 0. -/
theorem notAppeared_shifts_window_witness :
    (notAppearedFields staleBoss 0).nextSpawnEstimateMin = some (100 + hourMs) :=
  (notAppeared_shifts_window staleBoss 0 100 (by simp [staleBoss]) (by norm_num)
    (by intro w hw hw0; simp [staleBoss] at hw; linarith)).1

/-- Claim C6: on the fields (`isWindow`, `lastKilled`, `nextSpawnEstimateMin`,
`nextSpawnEstimateMax`, `messageIdToTrack`), the state transformation of the
auto-miss timer body equals the one of the "missed" user response handled by
the button handler, at the same `now`. -/
theorem autoTimeout_matches_miss (b : Boss) (now : ℚ) :
    (handleBossButton b "miss" now).isWindow = (autoMissFields b now).isWindow ∧
    (handleBossButton b "miss" now).lastKilled = (autoMissFields b now).lastKilled ∧
    (handleBossButton b "miss" now).nextSpawnEstimateMin
        = (autoMissFields b now).nextSpawnEstimateMin ∧
    (handleBossButton b "miss" now).nextSpawnEstimateMax
        = (autoMissFields b now).nextSpawnEstimateMax ∧
    (handleBossButton b "miss" now).messageIdToTrack
        = (autoMissFields b now).messageIdToTrack := by
  unfold handleBossButton autoMissFields missFields
  simp only [reduceIte, String.reduceEq]
  exact ⟨trivial, trivial, trivial, trivial, trivial⟩

/-- Claim C7 counterexample: a kill reported 30 seconds in the future
(`killTime = now + 30000 > now`) is accepted by the `!killed` handler — the
spec's "reject any strictly future timestamp" is not what the code does
(src/index.js line 264 allows up to 60 s of clock skew; the
src/unnamed/part_000 variant performs no future check at all). -/
theorem killed_future_grace_counterexample :
    (1030000 : ℚ) > 1000000 ∧
    (killedCommand sampleBoss 1030000 1000000).2 = true ∧
    (killedCommand sampleBoss 1030000 1000000).1.lastKilled = some 1030000 := by
  refine ⟨by norm_num, ?_, ?_⟩ <;>
    · simp only [killedCommand, updateBossAsKilledFields]
      norm_num [sampleBoss, truthyNum]

/-- Claim C7 (amended): the `!killed` handler rejects an explicit timestamp
iff it exceeds `now + 60000` (one minute into the future); a rejected report
leaves the boss entirely unchanged, and every report with
`killTime ≤ now + 60000` is accepted and applies `updateBossAsKilled`. -/
theorem killed_rejects_only_beyond_one_minute (b : Boss) (t now : ℚ) :
    ((killedCommand b t now).2 = false ↔ now + 60000 < t) ∧
    (now + 60000 < t → (killedCommand b t now).1 = b) ∧
    (t ≤ now + 60000 → (killedCommand b t now).2 = true ∧
        (killedCommand b t now).1 = updateBossAsKilledFields b t) := by
  unfold killedCommand
  split_ifs with h
  · exact ⟨by simpa using h, fun _ => rfl, fun hle => absurd h (by linarith)⟩
  · refine ⟨by simpa using h, fun hgt => absurd hgt (by simpa using h), fun _ => ⟨rfl, rfl⟩⟩

/-- Witness for the amended C7: a report two minutes in the future is
rejected with the boss unchanged; a report in the past is accepted. -/
theorem killed_rejects_only_beyond_one_minute_witness :
    ((killedCommand sampleBoss 1120000 1000000).2 = false ∧
        (killedCommand sampleBoss 1120000 1000000).1 = sampleBoss) ∧
    (killedCommand sampleBoss 900000 1000000).2 = true :=
  ⟨⟨(killed_rejects_only_beyond_one_minute sampleBoss 1120000 1000000).1.mpr (by norm_num),
    (killed_rejects_only_beyond_one_minute sampleBoss 1120000 1000000).2.1 (by norm_num)⟩,
   ((killed_rejects_only_beyond_one_minute sampleBoss 900000 1000000).2.2 (by norm_num)).1⟩

/-- Claim C8 counterexample: `staleBoss` has `messageIdToTrack` absent, yet a
"missed" button response still rewrites its estimate fields — the handler
(src/index.js lines 474-548) never requires a pending message reference, so
the response is not ignored as stale. -/
theorem stale_response_counterexample :
    staleBoss.messageIdToTrack = none ∧
    (handleBossButton staleBoss "miss" 7200000).nextSpawnEstimateMin
        ≠ staleBoss.nextSpawnEstimateMin ∧
    (handleBossButton staleBoss "miss" 7200000).lastKilled = none := by
  refine ⟨by simp [staleBoss], ?_, ?_⟩ <;>
    · simp only [handleBossButton, missFields, reduceIte, String.reduceEq]
      norm_num [staleBoss, sampleBoss, truthyNum, hourMs]

/-- Claim C8 (amended): a user response to an existing boss is processed
regardless of whether `messageIdToTrack` is present — the handler's result
does not depend on that field at all, and every path clears it. -/
theorem response_independent_of_pending_ref (b : Boss) (action : String)
    (now : ℚ) (m : Option String) :
    handleBossButton { b with messageIdToTrack := m } action now
        = handleBossButton b action now ∧
    (handleBossButton b action now).messageIdToTrack = none := by
  refine ⟨?_, rfl⟩
  simp only [handleBossButton, updateBossAsKilledFields, missFields, notAppearedFields]
  split_ifs <;> rfl

/-- Claim C10: when reading or parsing the persisted snapshot throws,
`loadBossData` catches the error and replaces the store with a fresh empty
collection — no guild data (partial or otherwise) remains. -/
theorem load_failure_yields_empty_store
    (prev : List (String × List (String × Boss))) (inp : LoadInput)
    (h : inp = LoadInput.readError ∨ inp = LoadInput.parseError) :
    loadBossData prev inp = [] := by
  rcases h with h | h <;> subst h <;> rfl

/-- Witness for C10: a failing parse over a non-empty previous store yields
the empty store. -/
theorem load_failure_yields_empty_store_witness :
    loadBossData [("guild1", [("queen_ant", sampleBoss)])] LoadInput.parseError = [] :=
  load_failure_yields_empty_store [("guild1", [("queen_ant", sampleBoss)])]
    LoadInput.parseError (Or.inr rfl)

/-! ### Timer-claim scenarios -/

/-- Two timer keys of the same entity with different phase suffixes differ. -/
theorem timerKey_phase_inj (g b : String) {p q : String}
    (h : timerKey g b p = timerKey g b q) : p = q := by
  have hd : (timerKey g b p).data = (timerKey g b q).data := by rw [h]
  simp only [timerKey, String.data_append, List.append_assoc] at hd
  exact String.ext (List.append_cancel_left
    (List.append_cancel_left (List.append_cancel_left (List.append_cancel_left hd))))

/-- A boss whose window opens one hour after epoch 0, as used in the
schedule / reschedule scenarios. -/
def exBoss : Boss :=
  { sampleBoss with
    lastKilled := some 0,
    nextSpawnEstimateMin := some 3600000,
    nextSpawnEstimateMax := some 7200000 }

/-- A fresh system tracking `exBoss`, with no timer ever created. -/
def exSys0 : Sys :=
  { boss := some exBoss, activeTimers := [], timers := [], nextId := 0, delivered := [] }

/-- The system after a first `scheduleBossNotifications` at time 0. -/
def exSys1 : Sys := scheduleBossNotifications "g1" "queen_ant" 0 exSys0

/-- The system after rescheduling (a second `scheduleBossNotifications`,
still at time 0) — the scenario of claims C1 and C2. -/
def exSys2 : Sys := scheduleBossNotifications "g1" "queen_ant" 0 exSys1

/-- Claim C1 counterexample: rescheduling the same (entity, phase) reissues
the *same* key as the first schedule — the "token" is the deterministic
string `` `${guildId}_${bossKey}_pre` ``, not a freshly issued one — and
firing the pre-alert callback armed by the first schedule after the
reschedule is not a no-op: its captured key still matches the live
`notificationJob`, so the callback delivers a message and mutates the entity
(its `notificationJob` is cleared). -/
theorem stale_token_counterexample :
    exSys1.boss = some { exBoss with
      notificationJob := some (timerKey "g1" "queen_ant" "pre"),
      spawnNotificationJob := some (timerKey "g1" "queen_ant" "spawn") } ∧
    exSys2.boss = some { exBoss with
      notificationJob := some (timerKey "g1" "queen_ant" "pre"),
      spawnNotificationJob := some (timerKey "g1" "queen_ant" "spawn") } ∧
    exSys2.delivered = [] ∧
    (preCallback "queen_ant" (timerKey "g1" "queen_ant" "pre") exSys2).delivered
        = ["pre:queen_ant"] ∧
    (preCallback "queen_ant" (timerKey "g1" "queen_ant" "pre") exSys2).boss
        = some { exBoss with
            notificationJob := none,
            spawnNotificationJob := some (timerKey "g1" "queen_ant" "spawn") } := by
  refine ⟨?_, ?_, ?_, ?_, ?_⟩ <;>
    · norm_num [preCallback, exSys2, exSys1, exSys0, exBoss, sampleBoss,
        scheduleBossNotifications, clearBossTimers, clearOneTimer, armTimer, assocGet,
        assocDelete, assocSet, clearTimeoutOn, timerKey, truthyStr, truthyNum,
        PRE_SPAWN_NOTIFICATION_MINUTES, List.filter, List.find?]
      try decide

/-- Claim C1 (amended): the staleness guard compares the callback's captured
key against the entity's live job field, and a callback whose captured key no
longer matches (entity deleted, or timers cleared without rearming) executes
no effect. Scheduling, however, reuses the same key per (entity, phase), so
after a schedule-then-reschedule the old callback would still pass the guard;
what prevents it from firing is `clearBossTimers`, which `clearTimeout`s the
first timer during the reschedule: in the scenario the timer armed first
(id 0) is cancelled and exactly one pre-alert timer stays armed. -/
theorem stale_callback_is_noop (bkey capturedKey : String) (s : Sys)
    (h : ∀ bo, s.boss = some bo → bo.notificationJob ≠ some capturedKey) :
    preCallback bkey capturedKey s = s ∧
    ((exSys2.timers.filter fun t => t.id = 0).map TimerRec.cancelled = [true] ∧
      liveCount exSys2 (timerKey "g1" "queen_ant" "pre") = 1) := by
  constructor
  · unfold preCallback
    cases hb : s.boss with
    | none => rfl
    | some bo =>
        dsimp only
        rw [if_pos (h bo hb)]
  · constructor <;>
      · norm_num [liveCount, exSys2, exSys1, exSys0, exBoss, sampleBoss,
          scheduleBossNotifications, clearBossTimers, clearOneTimer, armTimer, assocGet,
          assocDelete, assocSet, clearTimeoutOn, timerKey, truthyNum,
          PRE_SPAWN_NOTIFICATION_MINUTES, List.filter, List.find?]
        try decide

/-- Witness for the amended C1: a callback whose captured key does not match
(`exSys0` has no live pre-alert job) leaves the system untouched. -/
theorem stale_callback_is_noop_witness :
    preCallback "queen_ant" (timerKey "g1" "queen_ant" "pre") exSys0 = exSys0 :=
  (stale_callback_is_noop "queen_ant" (timerKey "g1" "queen_ant" "pre") exSys0
    (by intro bo hbo
        obtain rfl : exBoss = bo := by simpa [exSys0] using hbo
        simp [exBoss, sampleBoss])).1

/-- The C2 scenario: two consecutive `scheduleBossNotifications` calls for
the same entity, starting from a system with no timer ever created. -/
def schedTwice (g b : String) (bo : Boss) (now : ℚ) : Sys :=
  scheduleBossNotifications g b now (scheduleBossNotifications g b now
    ⟨some bo, [], [], 0, []⟩)

/-- Claim C2: after calling `scheduleBossNotifications` twice in succession
for the same entity, each phase has at most one armed timer — exactly one for
each phase whose arming condition holds (`pre` when the pre-alert lead is
still in the future, `spawn` when the window start is), and none for
`automiss` — never two, because scheduling always cancels before creating. -/
theorem schedule_twice_single_timer (g b : String) (bo : Boss) (now m : ℚ)
    (hm : bo.nextSpawnEstimateMin = some m) (hm0 : m ≠ 0) :
    liveCount (schedTwice g b bo now) (timerKey g b "pre") ≤ 1 ∧
    liveCount (schedTwice g b bo now) (timerKey g b "spawn") ≤ 1 ∧
    liveCount (schedTwice g b bo now) (timerKey g b "automiss") = 0 ∧
    (m - PRE_SPAWN_NOTIFICATION_MINUTES * 60 * 1000 > now →
        liveCount (schedTwice g b bo now) (timerKey g b "pre") = 1) ∧
    (m > now → liveCount (schedTwice g b bo now) (timerKey g b "spawn") = 1) := by
  have hps : timerKey g b "pre" ≠ timerKey g b "spawn" := fun h => by
    simpa using timerKey_phase_inj g b h
  have hpa : timerKey g b "pre" ≠ timerKey g b "automiss" := fun h => by
    simpa using timerKey_phase_inj g b h
  have hsa : timerKey g b "spawn" ≠ timerKey g b "automiss" := fun h => by
    simpa using timerKey_phase_inj g b h
  by_cases hP : m - PRE_SPAWN_NOTIFICATION_MINUTES * 60 * 1000 > now <;>
  by_cases hQ : m > now <;>
    simp [schedTwice, scheduleBossNotifications, clearBossTimers, clearOneTimer,
      armTimer, assocGet, assocDelete, assocSet, clearTimeoutOn, liveCount, hm, hm0,
      truthyNum, hP, hQ, hps, hpa, hsa, hps.symm, hpa.symm, hsa.symm,
      List.filter, List.find?]

/-- Witness for C2: in the concrete scenario (window start one hour ahead,
scheduled twice at time 0) each of the two armed phases has exactly one live
timer. -/
theorem schedule_twice_single_timer_witness :
    liveCount (schedTwice "g1" "queen_ant" exBoss 0) (timerKey "g1" "queen_ant" "pre") = 1 ∧
    liveCount (schedTwice "g1" "queen_ant" exBoss 0) (timerKey "g1" "queen_ant" "spawn") = 1 :=
  ⟨(schedule_twice_single_timer "g1" "queen_ant" exBoss 0 3600000
      (by simp [exBoss]) (by norm_num)).2.2.2.1
      (by norm_num [PRE_SPAWN_NOTIFICATION_MINUTES]),
   (schedule_twice_single_timer "g1" "queen_ant" exBoss 0 3600000
      (by simp [exBoss]) (by norm_num)).2.2.2.2 (by norm_num)⟩

/-- Claim C9: on startup reconciliation, a restored boss whose
`nextSpawnEstimateMin` lies in the future but within the pre-alert lead
(for example five minutes ahead of a 15-minute lead) gets
`scheduleBossNotifications` invoked, which arms exactly one spawn-alert timer
and no pre-alert timer. -/
theorem reconcile_close_future_arms_spawn_only (g b : String) (bo : Boss) (now m : ℚ)
    (hm : bo.nextSpawnEstimateMin = some m) (h0 : 0 ≤ now) (h1 : now < m)
    (h2 : m - PRE_SPAWN_NOTIFICATION_MINUTES * 60 * 1000 ≤ now) :
    liveCount (initializeBossTimers g b now ⟨some bo, [], [], 0, []⟩)
        (timerKey g b "spawn") = 1 ∧
    liveCount (initializeBossTimers g b now ⟨some bo, [], [], 0, []⟩)
        (timerKey g b "pre") = 0 := by
  have hm0 : m ≠ 0 := (h0.trans_lt h1).ne'
  have hP : ¬ (m - PRE_SPAWN_NOTIFICATION_MINUTES * 60 * 1000 > now) := not_lt.mpr h2
  have hQ : m > now := h1
  have hps : timerKey g b "pre" ≠ timerKey g b "spawn" := fun h => by
    simpa using timerKey_phase_inj g b h
  have hpa : timerKey g b "pre" ≠ timerKey g b "automiss" := fun h => by
    simpa using timerKey_phase_inj g b h
  have hsa : timerKey g b "spawn" ≠ timerKey g b "automiss" := fun h => by
    simpa using timerKey_phase_inj g b h
  simp [initializeBossTimers, scheduleBossNotifications, scheduleAutoMissTimer,
    clearBossTimers, clearOneTimer, armTimer, assocGet, assocDelete, assocSet,
    clearTimeoutOn, liveCount, hm, hm0, truthyNum, truthyStr, hP, hQ,
    hps, hpa, hsa, hps.symm, hpa.symm, hsa.symm, List.filter, List.find?]

/-- Witness for C9: the concrete restored boss (window start at 3600000 ms)
reconciled at time 3300000 — five minutes before the window start, inside the
15-minute lead — arms only the spawn timer. -/
theorem reconcile_close_future_witness :
    liveCount (initializeBossTimers "g1" "queen_ant" 3300000 ⟨some exBoss, [], [], 0, []⟩)
        (timerKey "g1" "queen_ant" "spawn") = 1 ∧
    liveCount (initializeBossTimers "g1" "queen_ant" 3300000 ⟨some exBoss, [], [], 0, []⟩)
        (timerKey "g1" "queen_ant" "pre") = 0 :=
  reconcile_close_future_arms_spawn_only "g1" "queen_ant" exBoss 3300000 3600000
    (by simp [exBoss]) (by norm_num) (by norm_num)
    (by norm_num [PRE_SPAWN_NOTIFICATION_MINUTES])
